import Mathlib

/-!
Shallow embedding of the wxgov-custom-metric incremental evaluation pipeline
(src/main.py, src/wos/common.py, src/wos/custom_evaluator.py,
src/utils/async_threading.py), together with theorems settling the spec
claims about it.

External collaborator calls (OpenScale subscription / run / record services,
the watsonx.governance evaluator, the metrics manager) are modelled as
parameters: each embedded function takes the collaborator's response (or the
collaborator itself as a function) as an argument, and Python exceptions are
modelled with an explicit `Except` error channel.
-/

namespace WxGov

/-- Python exception classes that matter to the embedded code paths. -/
inductive PyErr where
  | keyError
  | indexError
  | attributeError
  | nameError
  | connectionError
  | runtimeError
  deriving DecidableEq, Repr

/-- A JSON-like Python value, as manipulated by the handler and the record
fetcher (dicts are association lists in key-insertion order). -/
inductive JVal where
  | null
  | jbool (b : Bool)
  | jstr (s : String)
  | jnum (q : ℚ)
  | jlist (xs : List JVal)
  | jdict (kvs : List (String × JVal))
  deriving Repr

/-- Python truthiness of a value (`bool(v)`). -/
def JVal.truthy : JVal → Bool
  | .null => false
  | .jbool b => b
  | .jstr s => !(s.isEmpty)
  | .jnum q => decide (q ≠ 0)
  | .jlist xs => !xs.isEmpty
  | .jdict kvs => !kvs.isEmpty

/-- `v.get(k)` on a Python value: returns the entry (or `none` for a missing
key) when `v` is a dict, and raises `AttributeError` otherwise (in
particular when `v` is `None`). -/
def JVal.get : JVal → String → Except PyErr (Option JVal)
  | .jdict kvs, k => .ok (kvs.lookup k)
  | _, _ => .error .attributeError

/-- Key-membership test on an embedded Python dict (`k in d`). -/
def dictContains (d : List (String × JVal)) (k : String) : Bool :=
  d.any (fun p => p.1 == k)

/-- `d[k] = v` on an embedded Python dict: overwrite in place when the key
exists (keeping its position), append otherwise. -/
def dictSet (d : List (String × JVal)) (k : String) (v : JVal) :
    List (String × JVal) :=
  if dictContains d k then
    d.map (fun p => if p.1 == k then (k, v) else p)
  else
    d ++ [(k, v)]

/-- A Python dict comprehension: insert the generated pairs left to right
into an initially empty dict. -/
def dictComp (pairs : List (String × JVal)) : List (String × JVal) :=
  pairs.foldl (fun d p => dictSet d p.1 p.2) []

/-- `d.get(k)` on an embedded dict when the receiver is known to be a dict:
the stored value, or Python `None` (`JVal.null`) for a missing key. -/
def pyGet (d : List (String × JVal)) (k : String) : JVal :=
  (d.lookup k).getD .null

/-! ## Watermark Tracker — `get_last_run_date` (src/wos/common.py lines 88-109) -/

/-- One run entry of the run-listing response.  The source reads
`r.get("entity", {}).get("status", {}).get("state")` (missing links yield
`None`, never an exception) and
`r.get("metadata", {}).get("created_at", "")` (missing yields `""`). -/
structure Run where
  state : Option String
  created_at : Option String
  deriving DecidableEq, Repr

/-- The run-listing response dict.  `runs = none` models a response without
the `"runs"` key: the source subscripts `runs_dict["runs"]`, which raises
`KeyError` in that case. -/
structure RunsDict where
  runs : Option (List Run)
  deriving Repr

/-- `get_last_run_date(monitor_instance_id)`.  The collaborator call
`wos_client.monitor_instances.list_runs(...).result.to_dict()` is passed in
as `lookup` (its value, or the exception it raised).  The whole body sits in
`try: ... except (IndexError, AttributeError): return ""` — only those two
exception classes are absorbed. -/
def get_last_run_date (lookup : Except PyErr RunsDict) : Except PyErr String :=
  let body : Except PyErr String :=
    match lookup with
    | .error e => .error e
    | .ok runs_dict =>
      match runs_dict.runs with
      | none => .error .keyError
      | some runs =>
        let finished_runs := runs.filter (fun r => r.state = some "finished")
        match finished_runs with
        | [] => .ok ""
        | r :: _ => .ok (r.created_at.getD "")
  match body with
  | .error .indexError => .ok ""
  | .error .attributeError => .ok ""
  | other => other

/-! ## Incremental Record Fetcher — `get_payload_data` (src/wos/common.py lines 115-145) -/

/-- One record of the record-listing response; `values` is
`record.get("entity", {}).get("values", {})`. -/
structure PayloadRecord where
  values : List (String × JVal)
  deriving Repr

/-- `start_date = start_date or None`: the empty string (the only falsy
`str`) is normalized to Python `None` before querying. -/
def startDate (wm : String) : Option String :=
  if wm = "" then none else some wm

/-- The row built for one record: the dict comprehension
`{field: values.get(field) for field in asset_properties["fields"] if field in values}`
followed by `row["generated_text"] = values.get("generated_text")`. -/
def mkRow (fields : List String) (record : PayloadRecord) :
    List (String × JVal) :=
  let values := record.values
  let row := dictComp ((fields.filter (fun f => dictContains values f)).map
    (fun f => (f, pyGet values f)))
  dictSet row "generated_text" (pyGet values "generated_text")

/-- `get_payload_data(payload_dataset_id, monitor_instance_id, asset_properties)`.
The collaborator `wos_client.data_sets.get_list_of_records(data_set_id, start, limit)`
is passed in as `listRecords : start → limit → records`; the run-listing
response consumed by the inner `get_last_run_date` call is `lookup`.  The
resulting `pd.DataFrame(rows)` is modelled by the row list itself. -/
def get_payload_data (listRecords : Option String → ℕ → List PayloadRecord)
    (lookup : Except PyErr RunsDict) (fields : List String) :
    Except PyErr (List (List (String × JVal))) :=
  match get_last_run_date lookup with
  | .error e => .error e
  | .ok wm =>
    let start_date := startDate wm
    let records := listRecords start_date 500
    .ok (records.map (mkRow fields))

/-! ## Field Resolver — `extract_prompt_fields` (src/wos/common.py lines 39-82) -/

/-- The dict returned by `extract_prompt_fields`.  In the source the non-RAG
branch returns a dict WITHOUT a `"context_fields"` key; that key absence is
`context_fields = none` here. -/
structure AssetProps where
  problem_type : Option String
  feature_fields : List String
  context_fields : Option (List String)
  fields : List String
  deriving DecidableEq, Repr

/-- `asset_properties.get("context_fields", [])` as performed by the
consumer `run_evaluator` (src/wos/custom_evaluator.py line 76): the stored
list, or `[]` when the key is absent. -/
def AssetProps.contextFieldsOrDefault (p : AssetProps) : List String :=
  p.context_fields.getD []

/-- The field computation of `extract_prompt_fields` after the subscription
payload has been unpacked (the network call and the entity/asset unpacking
are collaborator I/O; `problem_type`, `feature_fields_raw`,
`context_fields_raw` are the values read from the payload, the latter two
being the raw upstream lists turned into Python sets with `set(...)`,
modelled by `List.toFinset`). -/
def extract_prompt_fields (problem_type : Option String)
    (feature_fields_raw context_fields_raw : List String) : AssetProps :=
  let feature_fields : Finset String := feature_fields_raw.toFinset
  if problem_type = some "retrieval_augmented_generation" then
    let context_fields : Finset String := context_fields_raw.toFinset
    -- Remove duplicates: feature_fields = feature_fields - context_fields
    let feature_fields := feature_fields \ context_fields
    -- Combined fields
    let all_fields := feature_fields ∪ context_fields
    { problem_type := problem_type
      feature_fields := feature_fields.sort (· ≤ ·)
      context_fields := some (context_fields.sort (· ≤ ·))
      fields := all_fields.sort (· ≤ ·) }
  else
    { problem_type := problem_type
      feature_fields := feature_fields.sort (· ≤ ·)
      context_fields := none
      fields := feature_fields.sort (· ≤ ·) }

/-! ## Aggregation — `_calc_mean` (src/wos/custom_evaluator.py lines 37-55) -/

/-- One per-(record, metric) result dict as consumed by `_calc_mean`:
`record.get("name")` and `record.get("value")` may each be absent. -/
structure MetricSample where
  name : Option String
  value : Option ℚ
  deriving DecidableEq, Repr

/-- The loop state of `_calc_mean`: the two defaultdicts (`metric_sums`
with default `0.0`, `metric_counts` with default `0`) as total functions,
plus the key-insertion order of `metric_sums`, which drives the final dict
comprehension's iteration order. -/
structure CalcState where
  sums : String → ℚ
  counts : String → ℕ
  keys : List String

/-- One iteration of the `for record in records` loop of `_calc_mean`. -/
def calcStep (s : CalcState) (record : MetricSample) : CalcState :=
  match record.name, record.value with
  | some n, some v =>
    { sums := fun k => if k = n then s.sums k + v else s.sums k
      counts := fun k => if k = n then s.counts k + 1 else s.counts k
      keys := if n ∈ s.keys then s.keys else s.keys ++ [n] }
  | _, _ => s

/-- `_calc_mean(records)`: run the loop from empty defaultdicts, then build
`{name: metric_sums[name] / metric_counts[name] for name in metric_sums if metric_counts[name] > 0}`. -/
def calc_mean (records : List MetricSample) : List (String × ℚ) :=
  let s := records.foldl calcStep ⟨fun _ => 0, fun _ => 0, []⟩
  (s.keys.filter (fun n => decide (0 < s.counts n))).map
    (fun n => (n, s.sums n / (s.counts n : ℚ)))

/-- The well-formed values carried by the samples named `n`: samples whose
`name` or `value` is missing are skipped by the loop. -/
def validValues (records : List MetricSample) (n : String) : List ℚ :=
  records.filterMap (fun r =>
    match r.name, r.value with
    | some m, some v => if m = n then some v else none
    | _, _ => none)

/-! ## Evaluation Engine — `run_evaluator` (src/wos/custom_evaluator.py lines 61-96) -/

/-- The `GenAIConfiguration(...)` built at lines 74-81. -/
structure GenAIConfiguration where
  input_fields : List String
  context_fields : List String
  output_fields : List String
  reference_fields : List String
  deriving DecidableEq, Repr

/-- The configuration construction of `run_evaluator`. -/
def mkGenAIConfiguration (asset_properties : AssetProps) : GenAIConfiguration :=
  { input_fields := asset_properties.feature_fields
    context_fields :=
      if asset_properties.problem_type = some "retrieval_augmented_generation"
      then asset_properties.contextFieldsOrDefault else []
    output_fields := ["generated_text"]
    reference_fields := [] }

/-- Result of one `run_evaluator` call: the returned mean dict, plus how
many times the external evaluation resource
(`MetricsEvaluator(...).evaluate(...)`) was constructed and invoked. -/
structure EvalOutcome where
  result : List (String × ℚ)
  evaluator_invocations : ℕ
  deriving Repr

/-- `run_evaluator(data, asset_properties)`.  The external evaluation
resource is passed in as `evaluate` (batch and configuration to the
per-record result list `result.to_dict()`).  `data` is the row list backing
the input DataFrame; every row produced by `get_payload_data` carries a
`generated_text` column, so `data.empty` holds exactly when the row list is
empty. -/
def run_evaluator
    (evaluate : List (List (String × JVal)) → GenAIConfiguration →
      List MetricSample)
    (data : List (List (String × JVal))) (asset_properties : AssetProps) :
    EvalOutcome :=
  if data.isEmpty then
    { result := [], evaluator_invocations := 0 }
  else
    let config := mkGenAIConfiguration asset_properties
    let result_dict := evaluate data config
    if result_dict.isEmpty then
      { result := [], evaluator_invocations := 1 }
    else
      { result := calc_mean result_dict, evaluator_invocations := 1 }

/-! ## Request handler — `compute_custom_metric` (src/main.py lines 66-132) -/

/-- What the pipeline stages hand to the evaluator: the resolved
`prompt_properties` and the fetched `payload_data` rows. -/
structure PreparedPayload where
  prompt_properties : AssetProps
  payload_data : List (List (String × JVal))
  deriving Repr

/-- Observable outcome of one handler invocation:
`response` is a `JSONResponse(content={"predictions": ..., "errors": ...})`,
`httpError` a raised `HTTPException(status_code, detail)` (FastAPI renders
it as a `{"detail": ...}` body with that status), and `uncaught` an
exception that escapes the handler (FastAPI renders a generic
500 Internal Server Error with no detail from the exception). -/
inductive HandlerOutcome where
  | response (status : ℕ) (predictions : List JVal) (errors : List String)
  | httpError (status : ℕ) (detail : String)
  | uncaught (e : PyErr)
  deriving Repr

/-- The body of the `except Exception as ex` block at src/main.py lines
123-128: it returns `JSONResponse(content={"predictions": [], "errors":
[str(exc)]}, status_code=500)`, but the name it reads is `exc`, not the
bound name `ex`.  `exc` is passed in as the binding visible at that point
(Python deletes an `except ... as exc` binding when its block exits, and
both earlier `exc` binders sit on paths that raise before the store stage is
reached, so on every path into this block the name is unbound and the
lookup raises `NameError`). -/
def store_failure_response (exc : Option String) : HandlerOutcome :=
  match exc with
  | some s => .response 500 [] [s]
  | none => .uncaught .nameError

/-- `compute_custom_metric(request)`.  `request_json` is the outcome of
`await request.json()` (`.error ()` when the body is not valid JSON).  The
three pipeline stages are passed in as their outcomes:
`prepareStage` for `extract_prompt_fields` + `get_payload_data`
(`.error detail` when either raises, `detail` being `str(exc)`),
`evalStage` for the gated `run_evaluator` call, and `storeStage` for
`store_metrics`.  The four identifier reads `data.get(...)` share one
receiver, so the three after the first are elided: they succeed or raise
exactly together, and their values only feed the (abstract) stages.
The guard `if not input_data or not isinstance(input_data, list) or
len(input_data) == 0` rejects exactly every value that is not a non-empty
Python list, which is the wildcard of the match below. -/
def compute_custom_metric (request_json : Except Unit JVal)
    (prepareStage : Except String PreparedPayload)
    (evalStage : PreparedPayload → Except String (List (String × ℚ)))
    (storeStage : List (String × ℚ) → Except String Unit) : HandlerOutcome :=
  match request_json with
  | .error _ => .httpError 400 "Invalid JSON payload."
  | .ok request_body =>
    match request_body.get "input_data" with
    | .error e => .uncaught e
    | .ok input_data_opt =>
      match input_data_opt.getD .null with
      | .jlist (first :: _) =>
        match first.get "values" with
        | .error e => .uncaught e
        | .ok data_opt =>
          match (data_opt.getD .null).get "subscription_id" with
          | .error e => .uncaught e
          | .ok _subscription_id =>
            match prepareStage with
            | .error detail => .httpError 500 detail
            | .ok payload =>
              match evalStage payload with
              | .error detail => .httpError 500 detail
              | .ok custom_metrics =>
                match storeStage custom_metrics with
                | .ok _ =>
                  .response 200 [.jdict [("values", .jlist [.jstr "success"])]] []
                | .error _ => store_failure_response none
      | _ =>
        .httpError 400 "'input_data' field is required and must be a non-empty list."

/-- A well-formed trigger body, used to exercise the stage-failure paths:
`{"input_data": [{"values": {"subscription_id": ..., ...}}]}`. -/
def goodTriggerBody : JVal :=
  .jdict [("input_data", .jlist [.jdict [("values", .jdict
    [("subscription_id", .jstr "sub-1"),
     ("custom_monitor_instance_id", .jstr "mon-1"),
     ("payload_dataset_id", .jstr "ds-1"),
     ("custom_monitor_run_id", .jstr "run-1")])]])]

/-! ## Claim C2 — Watermark Tracker error absorption -/

/-- C2 counterexample: the claim says `get_last_run_date` never propagates
an error to its caller, but a transport failure raised by the run-listing
call is not an `IndexError` or `AttributeError` and escapes the
`except (IndexError, AttributeError)` clause unchanged. -/
theorem get_last_run_date_propagates_counterexample :
    get_last_run_date (.error .connectionError) = .error .connectionError := rfl

/-- C2 amended: `get_last_run_date` returns the absent watermark (`""`)
when the run listing succeeds and yields no finished run, and when the
lookup raises `IndexError` or `AttributeError`; every other exception —
including the `KeyError` from a response without the `"runs"` key —
propagates to the caller. -/
theorem get_last_run_date_amended :
    (∀ runs : List Run, runs.filter (fun x => x.state = some "finished") = [] →
      get_last_run_date (.ok ⟨some runs⟩) = .ok "")
    ∧ get_last_run_date (.error .indexError) = .ok ""
    ∧ get_last_run_date (.error .attributeError) = .ok ""
    ∧ (∀ e : PyErr, e ≠ .indexError → e ≠ .attributeError →
      get_last_run_date (.error e) = .error e)
    ∧ get_last_run_date (.ok ⟨none⟩) = .error .keyError := by
  refine ⟨fun runs h => ?_, rfl, rfl, fun e h1 h2 => ?_, rfl⟩
  · simp only [get_last_run_date, h]
  · cases e <;> simp_all [get_last_run_date]

/-- C2 amended, witnessed at concrete inputs: a listing with only a running
run is absorbed to `""`, a transport error propagates. -/
theorem get_last_run_date_amended_witness :
    get_last_run_date (.ok ⟨some [⟨some "running", some "2024-01-01"⟩]⟩) = .ok ""
    ∧ get_last_run_date (.error .runtimeError) = .error .runtimeError :=
  ⟨get_last_run_date_amended.1 [⟨some "running", some "2024-01-01"⟩] (by decide),
   get_last_run_date_amended.2.2.2.1 .runtimeError (by decide) (by decide)⟩

/-! ## Claim C10 — the empty string encodes the absent watermark -/

/-- C10: `get_last_run_date` returns the string `""` (never a Python
`None`) in every absorbing case — no finished run, missing `created_at` on
the first finished run, caught `IndexError`/`AttributeError` — and
otherwise the first finished run's `created_at`; `get_payload_data`
normalizes the falsy watermark through `start_date or None`, so the record
listing is invoked with `start = none` exactly when the watermark string is
empty, and with the watermark string itself otherwise. -/
theorem watermark_empty_string_spec :
    (∀ runs : List Run, runs.filter (fun x => x.state = some "finished") = [] →
      get_last_run_date (.ok ⟨some runs⟩) = .ok "")
    ∧ (∀ (runs : List Run) (r : Run) (rest : List Run),
      runs.filter (fun x => x.state = some "finished") = r :: rest →
      get_last_run_date (.ok ⟨some runs⟩) = .ok (r.created_at.getD ""))
    ∧ get_last_run_date (.error .indexError) = .ok ""
    ∧ get_last_run_date (.error .attributeError) = .ok ""
    ∧ (∀ (listRecords : Option String → ℕ → List PayloadRecord)
        (lookup : Except PyErr RunsDict) (fields : List String) (wm : String),
      get_last_run_date lookup = .ok wm →
      get_payload_data listRecords lookup fields
        = .ok ((listRecords (startDate wm) 500).map (mkRow fields)))
    ∧ (∀ wm : String, startDate wm = none ↔ wm = "") := by
  refine ⟨fun runs h => ?_, fun runs r rest h => ?_, rfl, rfl,
    fun listRecords lookup fields wm h => ?_, fun wm => ?_⟩
  · simp only [get_last_run_date, h]
  · simp only [get_last_run_date, h]
  · simp only [get_payload_data, h]
  · simp only [startDate]
    constructor
    · intro h
      by_contra hne
      simp [hne] at h
    · intro h
      simp [h]

/-- C10 witnessed: one finished run with a present timestamp flows through
as a non-`none` start, and the no-finished-run case queries with
`start = none`. -/
theorem watermark_empty_string_spec_witness :
    get_last_run_date
      (.ok ⟨some [⟨some "finished", some "2024-05-01T00:00:00Z"⟩]⟩)
      = .ok "2024-05-01T00:00:00Z"
    ∧ get_payload_data (fun s _ => [⟨[("start_was", match s with
        | none => .null
        | some t => .jstr t)]⟩]) (.ok ⟨some []⟩) ["start_was"]
      = .ok [[("start_was", .null), ("generated_text", .null)]]
    ∧ startDate "" = none := by
  refine ⟨?_, ?_, (watermark_empty_string_spec.2.2.2.2.2 "").mpr rfl⟩
  · exact watermark_empty_string_spec.2.1
      [⟨some "finished", some "2024-05-01T00:00:00Z"⟩]
      ⟨some "finished", some "2024-05-01T00:00:00Z"⟩ [] (by decide)
  · have h := watermark_empty_string_spec.2.2.2.2.1
      (fun s _ => [⟨[("start_was", match s with
        | none => .null
        | some t => .jstr t)]⟩]) (.ok ⟨some []⟩) ["start_was"] ""
      (watermark_empty_string_spec.1 [] (by decide))
    exact h.trans (by rfl)

/-! ## Claim C5 — RAG field resolution invariants -/

/-- Unfolding of the RAG branch of `extract_prompt_fields`. -/
theorem extract_prompt_fields_rag_eq (ff cf : List String) :
    extract_prompt_fields (some "retrieval_augmented_generation") ff cf =
      { problem_type := some "retrieval_augmented_generation"
        feature_fields := (ff.toFinset \ cf.toFinset).sort (· ≤ ·)
        context_fields := some (cf.toFinset.sort (· ≤ ·))
        fields := ((ff.toFinset \ cf.toFinset) ∪ cf.toFinset).sort (· ≤ ·) } :=
  rfl

/-- C5: for a RAG subscription, resolved `feature_fields` and
`context_fields` are disjoint, `fields` is their union as sets (context
wins on overlap because overlapping names are removed from
`feature_fields`), all three lists are duplicate-free and sorted, and the
whole profile is invariant under reordering of the upstream field lists. -/
theorem extract_prompt_fields_rag_spec (ff cf ff' cf' : List String)
    (hf : ff.Perm ff') (hc : cf.Perm cf') :
    (extract_prompt_fields (some "retrieval_augmented_generation")
        ff cf).feature_fields.toFinset ∩
      (extract_prompt_fields (some "retrieval_augmented_generation")
        ff cf).contextFieldsOrDefault.toFinset = ∅
    ∧ (extract_prompt_fields (some "retrieval_augmented_generation")
        ff cf).fields.toFinset
      = (extract_prompt_fields (some "retrieval_augmented_generation")
          ff cf).feature_fields.toFinset ∪
        (extract_prompt_fields (some "retrieval_augmented_generation")
          ff cf).contextFieldsOrDefault.toFinset
    ∧ (extract_prompt_fields (some "retrieval_augmented_generation")
        ff cf).feature_fields.Nodup
    ∧ (extract_prompt_fields (some "retrieval_augmented_generation")
        ff cf).contextFieldsOrDefault.Nodup
    ∧ (extract_prompt_fields (some "retrieval_augmented_generation")
        ff cf).fields.Nodup
    ∧ (extract_prompt_fields (some "retrieval_augmented_generation")
        ff cf).feature_fields.Sorted (· ≤ ·)
    ∧ (extract_prompt_fields (some "retrieval_augmented_generation")
        ff cf).contextFieldsOrDefault.Sorted (· ≤ ·)
    ∧ (extract_prompt_fields (some "retrieval_augmented_generation")
        ff cf).fields.Sorted (· ≤ ·)
    ∧ extract_prompt_fields (some "retrieval_augmented_generation") ff cf
        = extract_prompt_fields (some "retrieval_augmented_generation") ff' cf' := by
  have hff := List.toFinset_eq_of_perm _ _ hf
  have hcf := List.toFinset_eq_of_perm _ _ hc
  refine ⟨?_, ?_, ?_, ?_, ?_, ?_, ?_, ?_, ?_⟩ <;>
      (try simp only [extract_prompt_fields_rag_eq,
        AssetProps.contextFieldsOrDefault, Option.getD_some,
        Finset.sort_toFinset]) <;>
    first
    | rfl
    | exact Finset.sdiff_inter_self _ _
    | exact Finset.sort_nodup _ _
    | exact Finset.sort_sorted _ _
    | rw [hff, hcf]

/-- C5 witnessed: concrete RAG field lists given in two different upstream
orders resolve to the same disjoint, sorted profile. -/
theorem extract_prompt_fields_rag_spec_witness :
    (extract_prompt_fields (some "retrieval_augmented_generation")
        ["question", "context"] ["context", "docs"]).feature_fields.toFinset ∩
      (extract_prompt_fields (some "retrieval_augmented_generation")
        ["question", "context"] ["context", "docs"]).contextFieldsOrDefault.toFinset = ∅
    ∧ extract_prompt_fields (some "retrieval_augmented_generation")
        ["question", "context"] ["context", "docs"]
      = extract_prompt_fields (some "retrieval_augmented_generation")
        ["context", "question"] ["docs", "context"] := by
  have h := extract_prompt_fields_rag_spec ["question", "context"]
    ["context", "docs"] ["context", "question"] ["docs", "context"]
    (by decide) (by decide)
  exact ⟨h.1, h.2.2.2.2.2.2.2.2⟩

/-! ## Claim C6 — non-RAG field resolution -/

/-- C6: for a non-RAG subscription the returned profile has no
`context_fields` key (so the consumer's `.get("context_fields", [])` view
is the empty set) and `fields` equals `feature_fields`. -/
theorem extract_prompt_fields_nonrag_spec (pt : Option String)
    (ff cf : List String) (h : pt ≠ some "retrieval_augmented_generation") :
    (extract_prompt_fields pt ff cf).context_fields = none
    ∧ (extract_prompt_fields pt ff cf).contextFieldsOrDefault = []
    ∧ (extract_prompt_fields pt ff cf).fields
        = (extract_prompt_fields pt ff cf).feature_fields := by
  simp [extract_prompt_fields, if_neg h, AssetProps.contextFieldsOrDefault]

/-- C6 witnessed at a concrete non-RAG problem type. -/
theorem extract_prompt_fields_nonrag_spec_witness :
    (extract_prompt_fields (some "binary") ["age", "income"] []).context_fields
      = none
    ∧ (extract_prompt_fields (some "binary") ["age", "income"]
        []).contextFieldsOrDefault = []
    ∧ (extract_prompt_fields (some "binary") ["age", "income"] []).fields
      = (extract_prompt_fields (some "binary") ["age", "income"]
          []).feature_fields :=
  extract_prompt_fields_nonrag_spec (some "binary") ["age", "income"] []
    (by decide)

/-! ## Claim C3 — `_calc_mean` computes per-name arithmetic means -/

/-- Looking a key up in a list tabulating `f` over some keys yields `f` of
the key exactly when the key occurs. -/
theorem lookup_map_self (f : String → ℚ) (ks : List String) (n : String) :
    List.lookup n (ks.map fun k => (k, f k))
      = if n ∈ ks then some (f n) else none := by
  induction ks with
  | nil => rfl
  | cons k ks ih =>
    by_cases h : n = k
    · subst h
      simp [List.lookup]
    · have hb : (n == k) = false := beq_eq_false_iff_ne.mpr h
      simp [List.lookup, ih, h, hb, List.mem_cons]

/-- The running `metric_sums` entry accumulates exactly the well-formed
values of the matching samples. -/
theorem calc_foldl_sums (records : List MetricSample) :
    ∀ (s : CalcState) (n : String),
    (records.foldl calcStep s).sums n
      = s.sums n + (validValues records n).sum := by
  induction records with
  | nil => intro s n; simp [validValues]
  | cons r rs ih =>
    intro s n
    rw [List.foldl_cons, ih]
    cases hname : r.name with
    | none => simp [calcStep, validValues, hname]
    | some m =>
      cases hval : r.value with
      | none => simp [calcStep, validValues, hname, hval]
      | some v =>
        by_cases h : n = m
        · subst h
          simp only [calcStep, validValues, hname, hval, if_pos rfl,
            List.filterMap_cons]
          try simp [validValues]
          try ring
        · simp only [calcStep, validValues, hname, hval, if_neg h,
            List.filterMap_cons, if_neg (Ne.symm h)]
          try simp [validValues]

/-- The running `metric_counts` entry counts exactly the well-formed
matching samples. -/
theorem calc_foldl_counts (records : List MetricSample) :
    ∀ (s : CalcState) (n : String),
    (records.foldl calcStep s).counts n
      = s.counts n + (validValues records n).length := by
  induction records with
  | nil => intro s n; simp [validValues]
  | cons r rs ih =>
    intro s n
    rw [List.foldl_cons, ih]
    cases hname : r.name with
    | none => simp [calcStep, validValues, hname]
    | some m =>
      cases hval : r.value with
      | none => simp [calcStep, validValues, hname, hval]
      | some v =>
        by_cases h : n = m
        · subst h
          simp only [calcStep, validValues, hname, hval, if_pos rfl,
            List.filterMap_cons]
          try simp [validValues]
          try omega
        · simp only [calcStep, validValues, hname, hval, if_neg h,
            List.filterMap_cons, if_neg (Ne.symm h)]
          try simp [validValues]

/-- A name is a key of `metric_sums` exactly when it started as one or some
well-formed sample carries it. -/
theorem calc_foldl_keys (records : List MetricSample) :
    ∀ (s : CalcState) (n : String),
    (n ∈ (records.foldl calcStep s).keys
      ↔ n ∈ s.keys ∨ validValues records n ≠ []) := by
  induction records with
  | nil => intro s n; simp [validValues]
  | cons r rs ih =>
    intro s n
    rw [List.foldl_cons, ih]
    cases hname : r.name with
    | none => simp [calcStep, validValues, hname]
    | some m =>
      cases hval : r.value with
      | none => simp [calcStep, validValues, hname, hval]
      | some v =>
        by_cases h : n = m
        · subst h
          by_cases hm : n ∈ s.keys <;>
            simp [calcStep, validValues, hname, hval, hm]
        · by_cases hm : m ∈ s.keys <;>
            simp [calcStep, validValues, hname, hval, hm, h, Ne.symm h]

/-- C3: `_calc_mean` maps each metric name to the arithmetic mean of the
values of the samples bearing that name; a sample with a missing name or a
missing value contributes to neither the numerator nor the denominator of
its group; names with no surviving sample are absent from the result.  On
the spec's example batch the result is `{"bias": 0.5, "relevance": 1.0}`,
and adding malformed samples to that batch leaves the result unchanged. -/
theorem calc_mean_spec :
    (∀ (records : List MetricSample) (n : String),
      List.lookup n (calc_mean records)
        = if validValues records n = [] then none
          else some ((validValues records n).sum
            / ((validValues records n).length : ℚ)))
    ∧ calc_mean [⟨some "bias", some (2/10)⟩, ⟨some "bias", some (8/10)⟩,
        ⟨some "relevance", some 1⟩]
      = [("bias", 1/2), ("relevance", 1)]
    ∧ calc_mean [⟨some "bias", some (2/10)⟩, ⟨some "bias", none⟩,
        ⟨none, some (9/10)⟩, ⟨some "bias", some (8/10)⟩,
        ⟨some "relevance", some 1⟩]
      = [("bias", 1/2), ("relevance", 1)] := by
  refine ⟨fun records n => ?_,
    by simp +decide [calc_mean, calcStep]; norm_num,
    by simp +decide [calc_mean, calcStep]; norm_num⟩
  simp only [calc_mean]
  generalize hstate :
    records.foldl calcStep ⟨fun _ => 0, fun _ => 0, []⟩ = st
  have hs := calc_foldl_sums records ⟨fun _ => 0, fun _ => 0, []⟩ n
  have hc := calc_foldl_counts records ⟨fun _ => 0, fun _ => 0, []⟩ n
  have hk := calc_foldl_keys records ⟨fun _ => 0, fun _ => 0, []⟩ n
  rw [hstate] at hs hc hk
  simp only [zero_add] at hs hc
  simp only [List.not_mem_nil, false_or] at hk
  rw [lookup_map_self (fun k => st.sums k / (st.counts k : ℚ))]
  by_cases h : validValues records n = []
  · have hnk : n ∉ st.keys := by
      intro hmem
      exact (hk.mp hmem) h
    have hnf : n ∉ st.keys.filter (fun m => decide (0 < st.counts m)) := by
      intro hmem
      exact hnk (List.mem_filter.mp hmem).1
    rw [if_neg hnf, if_pos h]
  · have hlen : 0 < (validValues records n).length :=
      List.length_pos.mpr h
    have hmem : n ∈ st.keys.filter (fun m => decide (0 < st.counts m)) := by
      refine List.mem_filter.mpr ⟨hk.mpr h, ?_⟩
      rw [decide_eq_true_eq, hc]
      exact hlen
    rw [if_pos hmem, if_neg h, hs, hc]

/-! ## Claim C4 — empty batch short-circuit -/

/-- C4: on an empty record batch `run_evaluator` returns the empty mapping
and the external evaluation resource is neither constructed nor invoked
(zero invocations), for every evaluator and every asset profile. -/
theorem run_evaluator_empty_batch
    (evaluate : List (List (String × JVal)) → GenAIConfiguration →
      List MetricSample)
    (asset_properties : AssetProps) :
    run_evaluator evaluate [] asset_properties
      = { result := [], evaluator_invocations := 0 } := rfl

/-! ## Claim C7 — fetcher row bound and row shape -/

/-- Setting a key makes it present. -/
theorem dictContains_dictSet_self (d : List (String × JVal)) (k : String)
    (v : JVal) : dictContains (dictSet d k v) k = true := by
  unfold dictSet
  by_cases h : dictContains d k
  · rw [if_pos h]
    unfold dictContains at h ⊢
    rw [List.any_map, List.any_eq_true] at *
    obtain ⟨p, hp, hpk⟩ := h
    refine ⟨p, hp, ?_⟩
    simp [Function.comp, hpk]
  · rw [if_neg h]
    unfold dictContains
    simp

/-- Setting key `k` adds no key other than `k`. -/
theorem dictContains_dictSet_ne (d : List (String × JVal)) (k j : String)
    (v : JVal) (hne : j ≠ k) (h : dictContains (dictSet d k v) j = true) :
    dictContains d j = true := by
  unfold dictSet at h
  by_cases hk : dictContains d k
  · rw [if_pos hk] at h
    unfold dictContains at h ⊢
    rw [List.any_map, List.any_eq_true] at h
    rw [List.any_eq_true]
    obtain ⟨p, hp, hpj⟩ := h
    simp only [Function.comp] at hpj
    by_cases hpk : (p.1 == k) = true
    · rw [if_pos hpk] at hpj
      exact absurd (beq_iff_eq.mp hpj) (fun hh => hne hh.symm)
    · rw [if_neg hpk] at hpj
      exact ⟨p, hp, hpj⟩
  · rw [if_neg hk] at h
    unfold dictContains at h ⊢
    rw [List.any_append] at h
    rcases Bool.or_eq_true_iff.mp h with h' | h'
    · exact h'
    · exfalso
      simp only [List.any_cons, List.any_nil, Bool.or_false] at h'
      exact hne (beq_iff_eq.mp h').symm

/-- Every key of a dict comprehension comes from its generated pairs (or
from the initial accumulator). -/
theorem dictContains_foldl_dictSet (pairs : List (String × JVal)) :
    ∀ (d0 : List (String × JVal)) (j : String),
    dictContains (pairs.foldl (fun d p => dictSet d p.1 p.2) d0) j = true →
    dictContains d0 j = true ∨ ∃ w, (j, w) ∈ pairs := by
  induction pairs with
  | nil => intro d0 j h; exact Or.inl h
  | cons p ps ih =>
    intro d0 j h
    rw [List.foldl_cons] at h
    rcases ih (dictSet d0 p.1 p.2) j h with h' | ⟨w, hw⟩
    · by_cases hj : j = p.1
      · subst hj
        exact Or.inr ⟨p.2, by simp⟩
      · exact Or.inl (dictContains_dictSet_ne _ _ _ _ hj h')
    · exact Or.inr ⟨w, List.mem_cons_of_mem _ hw⟩

/-- Shape of one projected row: `generated_text` is always present, and
every other key is a profile field present in the record's values. -/
theorem mkRow_shape (fields : List String) (record : PayloadRecord) :
    dictContains (mkRow fields record) "generated_text" = true
    ∧ ∀ k, dictContains (mkRow fields record) k = true →
      k ≠ "generated_text" →
      k ∈ fields ∧ dictContains record.values k = true := by
  constructor
  · exact dictContains_dictSet_self _ _ _
  · intro k hk hne
    have h0 : dictContains (dictComp
        ((fields.filter (fun f => dictContains record.values f)).map
          (fun f => (f, pyGet record.values f)))) k = true :=
      dictContains_dictSet_ne _ _ _ _ hne hk
    rcases dictContains_foldl_dictSet _ _ _ h0 with h' | ⟨w, hw⟩
    · simp [dictContains] at h'
    · obtain ⟨f, hf, hfk⟩ := List.mem_map.mp hw
      obtain ⟨hmemf, hcf⟩ := List.mem_filter.mp hf
      have hfk1 : f = k := congrArg Prod.fst hfk
      subst hfk1
      exact ⟨hmemf, hcf⟩

/-- C7: provided the payload store honors its `limit` parameter (the
collaborator contract — `get_payload_data` always passes `limit = 500`),
the returned batch has at most 500 rows; every row carries the
`generated_text` key even when that field is absent or null upstream, and
every other key of a row is a profile field present in that row's source
record (fields absent from a record are omitted, not null-filled). -/
theorem get_payload_data_shape
    (listRecords : Option String → ℕ → List PayloadRecord)
    (lookup : Except PyErr RunsDict) (fields : List String)
    (rows : List (List (String × JVal)))
    (hlim : ∀ s, (listRecords s 500).length ≤ 500)
    (hok : get_payload_data listRecords lookup fields = .ok rows) :
    rows.length ≤ 500
    ∧ ∀ row ∈ rows, dictContains row "generated_text" = true
      ∧ ∃ record, row = mkRow fields record
        ∧ ∀ k, dictContains row k = true → k ≠ "generated_text" →
            k ∈ fields ∧ dictContains record.values k = true := by
  unfold get_payload_data at hok
  cases hwm : get_last_run_date lookup with
  | error e => rw [hwm] at hok; exact absurd hok (by simp)
  | ok wm =>
    rw [hwm] at hok
    simp only [Except.ok.injEq] at hok
    subst hok
    constructor
    · rw [List.length_map]
      exact hlim _
    · intro row hrow
      obtain ⟨record, _, hrec⟩ := List.mem_map.mp hrow
      subst hrec
      exact ⟨(mkRow_shape fields record).1, record, rfl,
        (mkRow_shape fields record).2⟩

/-- C7 witnessed: a concrete record with one profile field, one
non-profile field, and no `generated_text` value projects to a row with
exactly the profile field and a null `generated_text`. -/
theorem get_payload_data_shape_witness :
    ([[("question", JVal.jstr "q"), ("generated_text", JVal.null)]] :
      List (List (String × JVal))).length ≤ 500
    ∧ ∀ row ∈ ([[("question", JVal.jstr "q"), ("generated_text", JVal.null)]] :
        List (List (String × JVal))),
      dictContains row "generated_text" = true
      ∧ ∃ record, row = mkRow ["question"] record
        ∧ ∀ k, dictContains row k = true → k ≠ "generated_text" →
            k ∈ ["question"] ∧ dictContains record.values k = true :=
  get_payload_data_shape
    (fun _ _ => [⟨[("question", .jstr "q"), ("internal_id", .jnum 7)]⟩])
    (.ok ⟨some []⟩) ["question"]
    [[("question", .jstr "q"), ("generated_text", .null)]]
    (fun _ => by norm_num) rfl

/-! ## Claim C8 — storage-failure reporting (code bug) -/

/-- C8 is a code bug: when evaluation succeeds and the Metrics Sink fails,
the handler is meant to return a 500 JSON body carrying the storage
failure's cause, but the `except Exception as ex` block at src/main.py
lines 123-128 builds the body from the unbound name `exc`, so a
`NameError` escapes and the client receives a generic framework 500 with
no storage cause.  The theorem evaluates the handler at the failing input:
a well-formed trigger, successful prepare and evaluate stages, failing
store stage — for every evaluation result and every storage error. -/
theorem store_failure_nameerror (payload : PreparedPayload)
    (metrics : List (String × ℚ))
    (msgf : List (String × ℚ) → String) :
    compute_custom_metric (.ok goodTriggerBody) (.ok payload)
      (fun _ => .ok metrics) (fun m => .error (msgf m))
      = .uncaught .nameError := rfl

/-! ## Claim C9 — HTTP status taxonomy -/

/-- C9 counterexample: a trigger whose `input_data` entry lacks the
`values` mapping is a malformed payload, yet the handler does not respond
400 — `data` becomes `None`, `data.get("subscription_id")` raises
`AttributeError`, and the exception escapes the handler (a framework 500
with no stage failure involved). -/
theorem malformed_values_counterexample :
    compute_custom_metric (.ok (.jdict [("input_data", .jlist [.jdict []])]))
      (.error "unreached") (fun _ => .error "unreached")
      (fun _ => .error "unreached")
      = .uncaught .attributeError
    ∧ compute_custom_metric (.ok (.jdict [("input_data", .jlist [.jdict []])]))
      (.error "unreached") (fun _ => .error "unreached")
      (fun _ => .error "unreached")
      ≠ .httpError 400
          "'input_data' field is required and must be a non-empty list." :=
  ⟨rfl, fun h => HandlerOutcome.noConfusion h⟩

/-- C9 amended: an invalid JSON body, and a missing, non-list, or empty
`input_data`, yield HTTP 400; but an `input_data` entry lacking the
`values` mapping raises an unhandled `AttributeError` surfaced as a
framework 500 rather than 400 (and identifier fields are never validated —
missing ones flow into the pipeline as `None`); prepare-stage and
evaluate-stage failures yield HTTP 500. -/
theorem compute_custom_metric_statuses
    (prep : Except String PreparedPayload)
    (ev : PreparedPayload → Except String (List (String × ℚ)))
    (st : List (String × ℚ) → Except String Unit) :
    compute_custom_metric (.error ()) prep ev st
      = .httpError 400 "Invalid JSON payload."
    ∧ (∀ kvs : List (String × JVal), kvs.lookup "input_data" = none →
      compute_custom_metric (.ok (.jdict kvs)) prep ev st
        = .httpError 400
            "'input_data' field is required and must be a non-empty list.")
    ∧ (∀ v : JVal, (∀ x xs, v ≠ .jlist (x :: xs)) →
      compute_custom_metric (.ok (.jdict [("input_data", v)])) prep ev st
        = .httpError 400
            "'input_data' field is required and must be a non-empty list.")
    ∧ (∀ detail : String,
      compute_custom_metric (.ok goodTriggerBody) (.error detail) ev st
        = .httpError 500 detail)
    ∧ (∀ (payload : PreparedPayload) (detail : String),
      compute_custom_metric (.ok goodTriggerBody) (.ok payload)
        (fun _ => .error detail) st = .httpError 500 detail) := by
  refine ⟨rfl, fun kvs h => ?_, fun v hv => ?_, fun detail => rfl,
    fun payload detail => rfl⟩
  · simp only [compute_custom_metric, JVal.get, h, Option.getD_none]
  · have : (List.lookup "input_data" [("input_data", v)]) = some v := rfl
    cases v with
    | jlist xs =>
      cases xs with
      | nil => rfl
      | cons x xs => exact absurd rfl (hv x xs)
    | null => rfl
    | jbool b => rfl
    | jstr s => rfl
    | jnum q => rfl
    | jdict kvs => rfl

/-- C9 amended, witnessed at concrete inputs for each hypothesis-bearing
conjunct: a body without `input_data`, a string-valued `input_data`, and a
concrete prepare-stage failure. -/
theorem compute_custom_metric_statuses_witness :
    compute_custom_metric (.ok (.jdict [("other", .jnum 3)])) (.error "p")
      (fun _ => .error "e") (fun _ => .error "s")
      = .httpError 400
          "'input_data' field is required and must be a non-empty list."
    ∧ compute_custom_metric (.ok (.jdict [("input_data", .jstr "zap")]))
      (.error "p") (fun _ => .error "e") (fun _ => .error "s")
      = .httpError 400
          "'input_data' field is required and must be a non-empty list."
    ∧ compute_custom_metric (.ok goodTriggerBody) (.error "lookup failed")
      (fun _ => .error "e") (fun _ => .error "s")
      = .httpError 500 "lookup failed" :=
  ⟨(compute_custom_metric_statuses (.error "p") (fun _ => .error "e")
      (fun _ => .error "s")).2.1 [("other", .jnum 3)] rfl,
   (compute_custom_metric_statuses (.error "p") (fun _ => .error "e")
      (fun _ => .error "s")).2.2.1 (.jstr "zap")
      (fun _ _ h => JVal.noConfusion h),
   (compute_custom_metric_statuses (.error "p") (fun _ => .error "e")
      (fun _ => .error "s")).2.2.2.1 "lookup failed"⟩

end WxGov
